import Mathlib

/-!
Shallow embedding of the iwd-gui bus-client layer (src/dbus.rs, src/app.rs,
src/models.rs; src/main.rs is a byte-for-byte duplicate of the same logic in
one file).

Modelling conventions:
* Rust `&str` / `String` become Lean `String`; `str::trim` is embedded as
  `rustTrim` (drop leading and trailing whitespace characters from the
  character list; Rust trims by `char::is_whitespace`, embedded here with
  `Char.isWhitespace`).
* Rust byte-wise string comparison `str::cmp` (used by every `sort_by` in the
  source) is embedded as `lexLe` on character lists; UTF-8 byte order agrees
  with code-point order, so this is the same total order.
* A D-Bus `get_property` call is modelled by an `Option` field on the catalog
  object: `some v` is a successful typed read, `none` is any failure (missing
  property, type mismatch or transport error) — the source treats all of
  those alike through `Result`.
* `zbus` proxy construction for catalog reads always succeeds in the model:
  the paths come from the daemon's managed-object keys (valid object paths)
  and the interface names are compile-time constants.
* The fallible steps of `connect_network` and of the `RegisteredAgent`
  guard are driven by a `BusEnv` of outcome flags, and the bus calls they
  issue are recorded in an event trace.
* The agent's `Mutex` lock is modelled by a `poisoned` flag: `lock()` fails
  exactly when the lock is poisoned.
* Rust `i16` signal values become `Int`; the source never does arithmetic on
  them, only zero-tests and formatting, so no wrap-around modelling is needed.
-/

/-- Character-list embedding of Rust `str::trim`: drop leading whitespace,
then drop trailing whitespace (implemented by reversing). -/
def trimChars (l : List Char) : List Char :=
  ((l.dropWhile Char.isWhitespace).reverse.dropWhile Char.isWhitespace).reverse

/-- String-level embedding of Rust `str::trim`. -/
def rustTrim (s : String) : String :=
  ⟨trimChars s.data⟩

/-- Embedding of Rust `str::is_empty`. -/
def strIsEmpty (s : String) : Bool :=
  s.data.isEmpty

/-- Lexicographic comparison of character lists by code point; embeds the
Rust `Ord` instance on `str` used by the source's `sort_by` calls. -/
def lexLe : List Char → List Char → Bool
  | [], _ => true
  | _ :: _, [] => false
  | a :: as, b :: bs =>
    if a.toNat < b.toNat then true
    else if b.toNat < a.toNat then false
    else lexLe as bs

/-- String-level lexicographic order, embedding Rust `String::cmp`. -/
def strLe (a b : String) : Bool :=
  lexLe a.data b.data

/-- Error type of the Credential Agent, from `enum AgentError` in
src/dbus.rs: a `Canceled` or `Failed` D-Bus error condition, each carrying a
human-readable message, plus the pass-through `ZBus` transport variant
(never constructed by the agent's own logic). -/
inductive AgentError where
  | Canceled : String → AgentError
  | Failed : String → AgentError
  | ZBus : AgentError
deriving DecidableEq, Repr

/-- Embedding of `IwdAgent::passphrase_or_cancel` (src/dbus.rs lines 45-55).
The `poisoned` flag models the outcome of `self.state.lock()`: a poisoned
mutex yields `Failed`; otherwise a whitespace-only held secret yields
`Canceled` and a non-blank secret is returned untrimmed. -/
def passphrase_or_cancel (poisoned : Bool) (passphrase : String) :
    Except AgentError String :=
  if poisoned then .error (.Failed "agent lock poisoned")
  else if strIsEmpty (rustTrim passphrase) then
    .error (.Canceled "passphrase is empty")
  else .ok passphrase

/-- Embedding of `IwdAgent::request_passphrase` (src/dbus.rs line 73); the
network path argument is ignored by the source. -/
def request_passphrase (poisoned : Bool) (passphrase : String) :
    Except AgentError String :=
  passphrase_or_cancel poisoned passphrase

/-- Embedding of `IwdAgent::request_private_key_passphrase`
(src/dbus.rs line 77). -/
def request_private_key_passphrase (poisoned : Bool) (passphrase : String) :
    Except AgentError String :=
  passphrase_or_cancel poisoned passphrase

/-- Embedding of `IwdAgent::request_user_name_and_password`
(src/dbus.rs lines 81-88): the username component of the reply is the empty
string. -/
def request_user_name_and_password (poisoned : Bool) (passphrase : String) :
    Except AgentError (String × String) :=
  match passphrase_or_cancel poisoned passphrase with
  | .error e => .error e
  | .ok pass => .ok ("", pass)

/-- Embedding of `IwdAgent::request_user_password` (src/dbus.rs line 90). -/
def request_user_password (poisoned : Bool) (passphrase : String) :
    Except AgentError String :=
  passphrase_or_cancel poisoned passphrase

/-- Embedding of the passphrase normalisation in
`IwdGuiApp::connect_to_selected_network` (src/app.rs lines 178-183): trim the
passphrase field, and pass `None` to `connect_network` when the trimmed text
is empty, `Some(trimmed)` otherwise. -/
def normalized_passphrase (connect_passphrase : String) : Option String :=
  let t := rustTrim connect_passphrase
  if strIsEmpty t then none else some t

/-- Bus calls observable on the wire (or on the local object server) during
`connect_network`: removing and publishing the agent object on the
connection's object server, the `RegisterAgent` and `UnregisterAgent` calls
on the daemon's agent manager, and the `Connect` call on the network
object. -/
inductive BusEvent where
  | removeAgentObj
  | publishAgent
  | registerAgent
  | connectCall
  | unregisterAgent
deriving DecidableEq, Repr

/-- Outcomes of the fallible steps of `connect_network` and of the
`RegisteredAgent` guard, chosen by the environment (the bus and the
daemon): publishing the agent object, building the agent-manager proxy,
the `RegisterAgent` call, building the network proxy, the `Connect` call,
and building the agent-manager proxy inside the guard's `Drop`. -/
structure BusEnv where
  publishOk : Bool
  mgrProxyOk : Bool
  registerOk : Bool
  netProxyOk : Bool
  connectOk : Bool
  dropProxyOk : Bool
deriving DecidableEq, Repr

/-- Embedding of `RegisteredAgent::new` (src/dbus.rs lines 100-116): remove
any stale agent object (result ignored), publish the agent object (fallible),
build the agent-manager proxy (fallible, no bus call recorded), then issue
`RegisterAgent` (fallible). The parse of the constant agent path always
succeeds. Returns the result together with the trace of attempted bus
calls; on error the guard is not constructed, so no `Drop` runs. -/
def registeredAgent_new (env : BusEnv) : Except String Unit × List BusEvent :=
  if env.publishOk = false then
    (.error "publish agent object failed", [.removeAgentObj, .publishAgent])
  else if env.mgrProxyOk = false then
    (.error "agent manager proxy failed", [.removeAgentObj, .publishAgent])
  else if env.registerOk = false then
    (.error "RegisterAgent failed",
      [.removeAgentObj, .publishAgent, .registerAgent])
  else (.ok (), [.removeAgentObj, .publishAgent, .registerAgent])

/-- Embedding of `Drop for RegisteredAgent` (src/dbus.rs lines 119-136):
if the agent-manager proxy can be built, issue `UnregisterAgent` (its error
is ignored, so the call is attempted unconditionally); then remove the
published agent object (error ignored). -/
def registeredAgent_drop (env : BusEnv) : List BusEvent :=
  (if env.dropProxyOk then [.unregisterAgent] else []) ++ [.removeAgentObj]

/-- Embedding of `IwdDbus::connect_network` (src/dbus.rs lines 275-289): when
a passphrase is supplied, construct the `RegisteredAgent` guard first
(propagating its error without running `Drop`); then build the network proxy
and issue `Connect`; the guard's `Drop` runs on every exit path reached after
its construction. When no passphrase is supplied no agent step happens at
all. The passphrase value only seeds the agent's held secret; it does not
influence which bus calls are made. -/
def connect_network (network_path : String) (passphrase : Option String)
    (env : BusEnv) : Except String Unit × List BusEvent :=
  match passphrase with
  | some _ =>
    match registeredAgent_new env with
    | (.error e, tr) => (.error e, tr)
    | (.ok (), tr) =>
      if env.netProxyOk = false then
        (.error ("network proxy failed for " ++ network_path),
          tr ++ registeredAgent_drop env)
      else if env.connectOk = false then
        (.error "Connect failed", tr ++ [.connectCall] ++ registeredAgent_drop env)
      else (.ok (), tr ++ [.connectCall] ++ registeredAgent_drop env)
  | none =>
    if env.netProxyOk = false then
      (.error ("network proxy failed for " ++ network_path), [])
    else if env.connectOk = false then
      (.error "Connect failed", [.connectCall])
    else (.ok (), [.connectCall])

/-- Interface name constant `DEVICE_IFACE` from src/dbus.rs. -/
def DEVICE_IFACE : String := "net.connman.iwd.Device"

/-- Interface name constant `NETWORK_IFACE` from src/dbus.rs. -/
def NETWORK_IFACE : String := "net.connman.iwd.Network"

/-- Interface name constant `KNOWN_NETWORK_IFACE` from src/dbus.rs. -/
def KNOWN_NETWORK_IFACE : String := "net.connman.iwd.KnownNetwork"

/-- One object of the daemon's managed-object catalog, together with the
outcomes of the typed property reads the source performs on it. `interfaces`
is the key set of the object's interface map; each `Option` field models
one `proxy.get_property` outcome on the named interface (`some v` success,
`none` any read failure). `netSignal` carries the `i16` signal value as an
integer. -/
structure IwdObject where
  path : String
  interfaces : List String
  devName : Option String
  netName : Option String
  netType : Option String
  netConnected : Option Bool
  netSignal : Option Int
  netDevice : Option String
  knName : Option String
  knType : Option String
  knAutoconnect : Option Bool
  knHidden : Option Bool
deriving DecidableEq, Repr

/-- Domain record `DeviceInfo` from src/models.rs. -/
structure DeviceInfo where
  name : String
  path : String
deriving DecidableEq, Repr

/-- Domain record `VisibleNetwork` from src/models.rs. -/
structure VisibleNetwork where
  ssid : String
  security : String
  signal : String
  connected : Bool
  path : String
  device_path : Option String
deriving DecidableEq, Repr

/-- Domain record `KnownNetwork` from src/models.rs. -/
structure KnownNetwork where
  name : String
  network_type : String
  autoconnect : Option Bool
  hidden : Option Bool
  path : String
deriving DecidableEq, Repr

/-- Embedding of the source's `out.sort_by(|a, b| key(a).cmp(&key(b)))`:
sort by a string key under the byte-wise lexicographic order. -/
def sortByKey (key : α → String) (l : List α) : List α :=
  @List.insertionSort α (fun a b => strLe (key a) (key b) = true)
    (fun a b => instDecidableEqBool (strLe (key a) (key b)) true) l

/-- Catalog loop body of `IwdDbus::list_devices` (src/dbus.rs lines 156-171):
skip objects without the Device interface; a failed `Name` read aborts the
whole listing; otherwise emit a `DeviceInfo`. -/
def collectDevices : List IwdObject → Except String (List DeviceInfo)
  | [] => .ok []
  | o :: rest =>
    if o.interfaces.contains DEVICE_IFACE then
      match o.devName with
      | none => .error ("Failed to read device name at " ++ o.path)
      | some n =>
        match collectDevices rest with
        | .error e => .error e
        | .ok out => .ok ({ name := n, path := o.path } :: out)
    else collectDevices rest

/-- Embedding of `IwdDbus::list_devices` (src/dbus.rs lines 152-175):
collect one record per Device-interface object, then sort by name. -/
def list_devices (objects : List IwdObject) : Except String (List DeviceInfo) :=
  match collectDevices objects with
  | .error e => .error e
  | .ok out => .ok (sortByKey (fun d => d.name) out)

/-- Adapter filter of `IwdDbus::list_visible_networks` (src/dbus.rs lines
212-218): with a selected device and a resolved owning device, keep the
entry only when they coincide; in every other case keep it. -/
def passesFilter (sel : Option String) (dev : Option String) : Bool :=
  match sel, dev with
  | some s, some d => d == s
  | _, _ => true

/-- Per-object body of `IwdDbus::list_visible_networks` (src/dbus.rs lines
184-228): skip objects without the Network interface; a failed `Name` read
aborts the listing (and is reached before the adapter filter); `Type`,
`Connected` and `Signal` default to "-", `false` and `0`; the signal is
rendered "-" when zero and "<dBm> dBm" otherwise; then the adapter filter
decides whether the entry is kept. -/
def visibleEntry (sel : Option String) (o : IwdObject) :
    Except String (Option VisibleNetwork) :=
  if o.interfaces.contains NETWORK_IFACE then
    match o.netName with
    | none => .error ("Failed to read network name at " ++ o.path)
    | some ssid =>
      let security := o.netType.getD "-"
      let connected := o.netConnected.getD false
      let signal_dbm := o.netSignal.getD 0
      let signal := if signal_dbm = 0 then "-" else toString signal_dbm ++ " dBm"
      let device_path := o.netDevice
      if passesFilter sel device_path then
        .ok (some
          { ssid := ssid, security := security, signal := signal,
            connected := connected, path := o.path, device_path := device_path })
      else .ok none
  else .ok none

/-- Catalog loop of `IwdDbus::list_visible_networks`, accumulating the kept
entries in iteration order. -/
def collectVisible (sel : Option String) :
    List IwdObject → Except String (List VisibleNetwork)
  | [] => .ok []
  | o :: rest =>
    match visibleEntry sel o with
    | .error e => .error e
    | .ok none => collectVisible sel rest
    | .ok (some v) =>
      match collectVisible sel rest with
      | .error e => .error e
      | .ok out => .ok (v :: out)

/-- Embedding of `IwdDbus::list_visible_networks` (src/dbus.rs lines
177-232): collect, then sort by SSID. -/
def list_visible_networks (sel : Option String) (objects : List IwdObject) :
    Except String (List VisibleNetwork) :=
  match collectVisible sel objects with
  | .error e => .error e
  | .ok out => .ok (sortByKey (fun v => v.ssid) out)

/-- Per-object body of `IwdDbus::list_known_networks` (src/dbus.rs lines
238-262): skip objects without the KnownNetwork interface; a failed `Name`
read aborts the listing; `Type` defaults to "-"; `AutoConnect` and `Hidden`
are kept as optional values (`.ok()` in the source). -/
def knownEntry (o : IwdObject) : Except String (Option KnownNetwork) :=
  if o.interfaces.contains KNOWN_NETWORK_IFACE then
    match o.knName with
    | none => .error "Failed to read known network name"
    | some n =>
      .ok (some
        { name := n, network_type := o.knType.getD "-",
          autoconnect := o.knAutoconnect, hidden := o.knHidden, path := o.path })
  else .ok none

/-- Catalog loop of `IwdDbus::list_known_networks`. -/
def collectKnown : List IwdObject → Except String (List KnownNetwork)
  | [] => .ok []
  | o :: rest =>
    match knownEntry o with
    | .error e => .error e
    | .ok none => collectKnown rest
    | .ok (some k) =>
      match collectKnown rest with
      | .error e => .error e
      | .ok out => .ok (k :: out)

/-- Embedding of `IwdDbus::list_known_networks` (src/dbus.rs lines 234-266):
collect, then sort by name. -/
def list_known_networks (objects : List IwdObject) :
    Except String (List KnownNetwork) :=
  match collectKnown objects with
  | .error e => .error e
  | .ok out => .ok (sortByKey (fun k => k.name) out)

/-- Embedding of the device-selection reconciliation in
`IwdGuiApp::refresh_all` (src/app.rs lines 63-81, `Ok(devices)` branch):
an empty device list clears the selection; otherwise, when no device path
matches the current selection, the selection becomes the first device of the
new list; otherwise it is left unchanged. -/
def reconcile_selected_device (devices : List DeviceInfo)
    (selected : Option String) : Option String :=
  match devices with
  | [] => none
  | d0 :: rest =>
    if (d0 :: rest).all (fun d => decide (some d.path ≠ selected)) then
      some d0.path
    else selected

/-- Object path of the demo wireless adapter. -/
def demoDevicePath : String := "/net/connman/iwd/0/1"

/-- Demo catalog object: a wireless adapter named "wlan0". -/
def demoAdapter : IwdObject :=
  { path := demoDevicePath, interfaces := [DEVICE_IFACE],
    devName := some "wlan0", netName := none, netType := none,
    netConnected := none, netSignal := none, netDevice := none,
    knName := none, knType := none, knAutoconnect := none, knHidden := none }

/-- Demo catalog object: visible network "CafeWifi" with signal 0. -/
def demoCafe : IwdObject :=
  { path := "/net/connman/iwd/0/1/cafe_psk", interfaces := [NETWORK_IFACE],
    devName := none, netName := some "CafeWifi", netType := some "psk",
    netConnected := some false, netSignal := some 0,
    netDevice := some demoDevicePath,
    knName := none, knType := none, knAutoconnect := none, knHidden := none }

/-- Demo catalog object: visible network "HomeNet" with signal -45 dBm. -/
def demoHome : IwdObject :=
  { path := "/net/connman/iwd/0/1/home_psk", interfaces := [NETWORK_IFACE],
    devName := none, netName := some "HomeNet", netType := some "psk",
    netConnected := some false, netSignal := some (-45),
    netDevice := some demoDevicePath,
    knName := none, knType := none, knAutoconnect := none, knHidden := none }

/-- Demo catalog object: saved network "HomeNet" whose `AutoConnect`
property is unreadable. -/
def demoKnown : IwdObject :=
  { path := "/net/connman/iwd/known/home_psk",
    interfaces := [KNOWN_NETWORK_IFACE],
    devName := none, netName := none, netType := none,
    netConnected := none, netSignal := none, netDevice := none,
    knName := some "HomeNet", knType := some "psk", knAutoconnect := none,
    knHidden := some false }

/-- Demo catalog object: a Network-interface object whose `Name` read fails
and whose owning adapter is resolvable. -/
def demoBadName : IwdObject :=
  { path := "/net/connman/iwd/0/1/bad_psk", interfaces := [NETWORK_IFACE],
    devName := none, netName := none, netType := some "psk",
    netConnected := some false, netSignal := some (-50),
    netDevice := some demoDevicePath,
    knName := none, knType := none, knAutoconnect := none, knHidden := none }

/-- Demo catalog object: a Network-interface object whose optional
properties are all unreadable and whose owning adapter is unresolved. -/
def demoBare : IwdObject :=
  { path := "/net/connman/iwd/0/1/bare_psk", interfaces := [NETWORK_IFACE],
    devName := none, netName := some "BareNet", netType := none,
    netConnected := none, netSignal := none, netDevice := none,
    knName := none, knType := none, knAutoconnect := none, knHidden := none }

/-- Demo catalog object: a Network-interface object with only the
`Connected` property unreadable, the other optional properties present. -/
def demoMixed : IwdObject :=
  { path := "/net/connman/iwd/0/1/mixed_wep", interfaces := [NETWORK_IFACE],
    devName := none, netName := some "MixedNet", netType := some "wep",
    netConnected := none, netSignal := some (-30), netDevice := none,
    knName := none, knType := none, knAutoconnect := none, knHidden := none }

/-- Demo catalog: one adapter, two visible networks, one saved network. -/
def demoCatalog : List IwdObject := [demoAdapter, demoCafe, demoHome, demoKnown]

/-- Dropping a prefix-predicate twice is the same as dropping it once. -/
theorem dropWhile_dropWhile_eq (p : α → Bool) (l : List α) :
    (l.dropWhile p).dropWhile p = l.dropWhile p := by
  induction l with
  | nil => rfl
  | cons a l ih =>
    by_cases h : p a = true
    · simpa [List.dropWhile, h] using ih
    · simp [List.dropWhile, h]

/-- The head of a list surviving `dropWhile` does not satisfy the predicate. -/
theorem head_dropWhile_false (p : α → Bool) (l : List α) (a : α) (as : List α)
    (h : l.dropWhile p = a :: as) : p a = false := by
  induction l with
  | nil => simp [List.dropWhile] at h
  | cons b l ih =>
    by_cases hb : p b = true
    · exact ih (by simpa [List.dropWhile, hb] using h)
    · rw [List.dropWhile_cons_of_neg hb] at h
      cases h
      exact eq_false_of_ne_true hb

/-- A list whose head (if any) fails the predicate is unchanged by
`dropWhile`. -/
theorem dropWhile_eq_self_of_head (p : α → Bool) (l : List α)
    (h : ∀ a as, l = a :: as → p a = false) : l.dropWhile p = l := by
  cases l with
  | nil => rfl
  | cons a as => exact List.dropWhile_cons_of_neg (by simp [h a as rfl])

/-- Trimming a character list is idempotent. -/
theorem trimChars_trimChars (l : List Char) :
    trimChars (trimChars l) = trimChars l := by
  unfold trimChars
  set p := Char.isWhitespace
  set d := l.dropWhile p with hd
  have hstep : ((d.reverse.dropWhile p).reverse).dropWhile p
      = (d.reverse.dropWhile p).reverse := by
    apply dropWhile_eq_self_of_head
    intro a as ha
    have hpre : (d.reverse.dropWhile p).reverse <+: d := by
      apply List.reverse_suffix.mp
      rw [List.reverse_reverse]
      exact List.dropWhile_suffix p
    obtain ⟨t, ht⟩ := hpre
    rw [ha] at ht
    cases hD : d with
    | nil =>
      rw [hD] at ht
      simp at ht
    | cons b bs =>
      have hb : p b = false := head_dropWhile_false p l b bs (hd ▸ hD)
      rw [hD] at ht
      have : a = b := by
        have := ht
        simp at this
        exact this.1
      rw [this]
      exact hb
  rw [hstep, List.reverse_reverse, dropWhile_dropWhile_eq]

/-- String-level idempotence of trimming. -/
theorem rustTrim_rustTrim (s : String) : rustTrim (rustTrim s) = rustTrim s := by
  simp [rustTrim, trimChars_trimChars]

/-- C1: each of the four Credential Agent request methods returns the held
secret when it is non-blank after trimming (with an empty username in the
dual-field reply), fails with a `Canceled` condition — never `Failed`, never
a success — when the held secret is blank after trimming, and fails with a
`Failed` condition when the agent lock is poisoned. -/
theorem agent_request_contract (poisoned : Bool) (s : String) :
    (poisoned = false → strIsEmpty (rustTrim s) = false →
      request_passphrase poisoned s = .ok s ∧
      request_private_key_passphrase poisoned s = .ok s ∧
      request_user_name_and_password poisoned s = .ok ("", s) ∧
      request_user_password poisoned s = .ok s) ∧
    (poisoned = false → strIsEmpty (rustTrim s) = true →
      (request_passphrase poisoned s = .error (.Canceled "passphrase is empty") ∧
       request_private_key_passphrase poisoned s
          = .error (.Canceled "passphrase is empty") ∧
       request_user_name_and_password poisoned s
          = .error (.Canceled "passphrase is empty") ∧
       request_user_password poisoned s
          = .error (.Canceled "passphrase is empty")) ∧
      (∀ m, request_passphrase poisoned s ≠ .error (.Failed m)) ∧
      (∀ t, request_passphrase poisoned s ≠ .ok t)) ∧
    (poisoned = true →
      request_passphrase poisoned s = .error (.Failed "agent lock poisoned") ∧
      request_private_key_passphrase poisoned s
          = .error (.Failed "agent lock poisoned") ∧
      request_user_name_and_password poisoned s
          = .error (.Failed "agent lock poisoned") ∧
      request_user_password poisoned s
          = .error (.Failed "agent lock poisoned")) := by
  refine ⟨?_, ?_, ?_⟩
  · intro hp hs
    subst hp
    simp [request_passphrase, request_private_key_passphrase,
      request_user_name_and_password, request_user_password,
      passphrase_or_cancel, hs]
  · intro hp hs
    subst hp
    simp [request_passphrase, request_private_key_passphrase,
      request_user_name_and_password, request_user_password,
      passphrase_or_cancel, hs]
  · intro hp
    subst hp
    simp [request_passphrase, request_private_key_passphrase,
      request_user_name_and_password, request_user_password,
      passphrase_or_cancel]

/-- C1 witness: the contract evaluated at concrete inputs in all three
regimes. -/
theorem agent_request_contract_witness :
    request_passphrase false "hunter2" = .ok "hunter2" ∧
    request_user_name_and_password false "hunter2" = .ok ("", "hunter2") ∧
    request_passphrase false "   " = .error (.Canceled "passphrase is empty") ∧
    request_passphrase true "hunter2" = .error (.Failed "agent lock poisoned") :=
  ⟨((agent_request_contract false "hunter2").1 rfl (by decide)).1,
   ((agent_request_contract false "hunter2").1 rfl (by decide)).2.2.1,
   (((agent_request_contract false "   ").2.1 rfl (by decide)).1).1,
   ((agent_request_contract true "hunter2").2.2 rfl).1⟩

/-- C9: the presentation layer passes to `connect_network` either no secret
at all, or a secret that is still non-blank after trimming; in the latter
case the Credential Agent holding that secret answers a passphrase request
successfully, so its `Canceled` branch is unreachable for connects initiated
by this caller. -/
theorem normalized_secret_nonempty (s : String) :
    normalized_passphrase s = none ∨
    ∃ t, normalized_passphrase s = some t ∧
      strIsEmpty (rustTrim t) = false ∧
      passphrase_or_cancel false t = .ok t := by
  by_cases h : strIsEmpty (rustTrim s) = true
  · left
    simp [normalized_passphrase, h]
  · right
    refine ⟨rustTrim s, ?_, ?_, ?_⟩
    · simp [normalized_passphrase, eq_false_of_ne_true h]
    · rw [rustTrim_rustTrim]
      exact eq_false_of_ne_true h
    · simp [passphrase_or_cancel, rustTrim_rustTrim, eq_false_of_ne_true h]

/-- C2: when a secret is supplied and the agent registration steps succeed,
the bus trace of `connect_network` is exactly stale-removal, publish,
`RegisterAgent`, then the `Connect` call (when the network proxy can be
built), then `UnregisterAgent` and removal of the published object —
regardless of whether `Connect` errors — so exactly one registration occurs
before `Connect` and exactly one unregistration occurs at return on every
such exit path; when no secret is supplied, no agent call occurs at all in
any environment. -/
theorem connect_network_agent_lifecycle (env : BusEnv) (p s : String)
    (h1 : env.publishOk = true) (h2 : env.mgrProxyOk = true)
    (h3 : env.registerOk = true) (h4 : env.dropProxyOk = true) :
    ((connect_network p (some s) env).2
      = [.removeAgentObj, .publishAgent, .registerAgent]
        ++ (if env.netProxyOk then [.connectCall] else [])
        ++ [.unregisterAgent, .removeAgentObj]) ∧
    (connect_network p (some s) env).2.count .registerAgent = 1 ∧
    (connect_network p (some s) env).2.count .unregisterAgent = 1 ∧
    (connect_network p none env).2.count .registerAgent = 0 ∧
    (connect_network p none env).2.count .publishAgent = 0 ∧
    (connect_network p none env).2.count .unregisterAgent = 0 := by
  obtain ⟨pub, mgr, reg, net, con, drp⟩ := env
  simp only at h1 h2 h3 h4
  subst h1 h2 h3 h4
  cases net <;> cases con <;>
    simp [connect_network, registeredAgent_new, registeredAgent_drop,
      List.count_cons, List.count_nil]

/-- C2 witness: the lifecycle theorem applied to the all-successful
environment of the spec's concrete scenario. -/
theorem connect_network_agent_lifecycle_witness :
    (connect_network "HomeNet_path" (some "hunter2")
        ⟨true, true, true, true, true, true⟩).2
      = [.removeAgentObj, .publishAgent, .registerAgent, .connectCall,
         .unregisterAgent, .removeAgentObj] :=
  by simpa using
    (connect_network_agent_lifecycle ⟨true, true, true, true, true, true⟩
      "HomeNet_path" "hunter2" rfl rfl rfl rfl).1

/-- Totality of the lexicographic order on character lists. -/
theorem lexLe_total (a : List Char) : ∀ b, lexLe a b = true ∨ lexLe b a = true := by
  induction a with
  | nil => intro b; left; rfl
  | cons x xs ih =>
    intro b
    cases b with
    | nil => right; rfl
    | cons y ys =>
      by_cases h1 : x.toNat < y.toNat
      · left; simp [lexLe, h1]
      · by_cases h2 : y.toNat < x.toNat
        · right; simp [lexLe, h2]
        · rcases ih ys with h | h
          · left; simp [lexLe, h1, h2, h]
          · right; simp [lexLe, h1, h2, h]

/-- Transitivity of the lexicographic order on character lists. -/
theorem lexLe_trans (a : List Char) :
    ∀ b c, lexLe a b = true → lexLe b c = true → lexLe a c = true := by
  induction a with
  | nil => intro b c _ _; rfl
  | cons x xs ih =>
    intro b c h1 h2
    cases b with
    | nil => simp [lexLe] at h1
    | cons y ys =>
      cases c with
      | nil => simp [lexLe] at h2
      | cons z zs =>
        by_cases hxy : x.toNat < y.toNat <;> by_cases hyz : y.toNat < z.toNat
        · simp [lexLe, show x.toNat < z.toNat from hxy.trans hyz]
        · have hzy : ¬ z.toNat < y.toNat := by
            by_contra hc
            simp [lexLe, hyz, hc] at h2
          have : y.toNat = z.toNat := by omega
          simp [lexLe, this ▸ hxy]
        · have hyx : ¬ y.toNat < x.toNat := by
            by_contra hc
            simp [lexLe, hxy, hc] at h1
          have : x.toNat = y.toNat := by omega
          simp [lexLe, this ▸ hyz]
        · have hyx : ¬ y.toNat < x.toNat := by
            by_contra hc
            simp [lexLe, hxy, hc] at h1
          have hzy : ¬ z.toNat < y.toNat := by
            by_contra hc
            simp [lexLe, hyz, hc] at h2
          have hxz : ¬ x.toNat < z.toNat := by omega
          have hzx : ¬ z.toNat < x.toNat := by omega
          rw [lexLe] at h1 h2 ⊢
          simp [hxy, hyx, hyz, hzy, hxz, hzx] at h1 h2 ⊢
          exact ih ys zs h1 h2

/-- A `sortByKey` result is sorted by its key. -/
theorem sortByKey_sorted (key : α → String) (l : List α) :
    List.Sorted (fun a b => strLe (key a) (key b) = true) (sortByKey key l) := by
  unfold sortByKey
  exact @List.sorted_insertionSort α _ _
    ⟨fun a b => lexLe_total (key a).data (key b).data⟩
    ⟨fun a b c hab hbc => lexLe_trans (key a).data (key b).data (key c).data hab hbc⟩
    l

/-- A `sortByKey` result is a permutation of its input. -/
theorem sortByKey_perm (key : α → String) (l : List α) :
    (sortByKey key l).Perm l :=
  List.perm_insertionSort _ l

/-- Every record in a successful `collectVisible` run comes from a catalog
object whose per-object body kept it. -/
theorem mem_collectVisible (sel : Option String) (objects : List IwdObject) :
    ∀ out, collectVisible sel objects = .ok out →
      ∀ v ∈ out, ∃ o ∈ objects, visibleEntry sel o = .ok (some v) := by
  induction objects with
  | nil =>
    intro out h v hv
    simp only [collectVisible] at h
    cases h
    simp at hv
  | cons o rest ih =>
    intro out h v hv
    simp only [collectVisible] at h
    cases he : visibleEntry sel o with
    | error e => rw [he] at h; cases h
    | ok w =>
      rw [he] at h
      cases w with
      | none =>
        obtain ⟨o', ho', hw⟩ := ih out h v hv
        exact ⟨o', List.mem_cons_of_mem o ho', hw⟩
      | some w =>
        cases hr : collectVisible sel rest with
        | error e => rw [hr] at h; cases h
        | ok out' =>
          rw [hr] at h
          cases h
          rcases List.mem_cons.mp hv with hvw | hvout
          · exact ⟨o, List.mem_cons_self o rest, hvw ▸ he⟩
          · obtain ⟨o', ho', hw⟩ := ih out' hr v hvout
            exact ⟨o', List.mem_cons_of_mem o ho', hw⟩

/-- A record kept by the per-object body of a catalog object is in the
result of a successful `collectVisible` run. -/
theorem collectVisible_mem_of_entry (sel : Option String)
    (objects : List IwdObject) :
    ∀ out o v, o ∈ objects → collectVisible sel objects = .ok out →
      visibleEntry sel o = .ok (some v) → v ∈ out := by
  induction objects with
  | nil => intro out o v ho; simp at ho
  | cons o' rest ih =>
    intro out o v ho h he
    simp only [collectVisible] at h
    cases he' : visibleEntry sel o' with
    | error e => rw [he'] at h; cases h
    | ok w =>
      rw [he'] at h
      rcases List.mem_cons.mp ho with rfl | hrest
      · rw [he] at he'
        cases he'
        cases hr : collectVisible sel rest with
        | error e => rw [hr] at h; cases h
        | ok out' => rw [hr] at h; cases h; exact List.mem_cons_self v out'
      · cases w with
        | none => exact ih out o v hrest h he
        | some w =>
          cases hr : collectVisible sel rest with
          | error e => rw [hr] at h; cases h
          | ok out' =>
            rw [hr] at h
            cases h
            exact List.mem_cons_of_mem w (ih out' o v hrest hr he)

/-- A Network-interface catalog object with an unreadable `Name` makes the
whole `collectVisible` run fail, whatever its other properties are. -/
theorem collectVisible_error_of_badName (sel : Option String)
    (objects : List IwdObject) (o : IwdObject) (ho : o ∈ objects)
    (hif : o.interfaces.contains NETWORK_IFACE = true)
    (hname : o.netName = none) :
    ∃ e, collectVisible sel objects = .error e := by
  induction objects with
  | nil => simp at ho
  | cons o' rest ih =>
    rcases List.mem_cons.mp ho with rfl | hrest
    · refine ⟨"Failed to read network name at " ++ o.path, ?_⟩
      simp only [collectVisible, visibleEntry, hif, hname]
      rfl
    · cases he : visibleEntry sel o' with
      | error e => exact ⟨e, by simp only [collectVisible, he]⟩
      | ok w =>
        obtain ⟨e, hrr⟩ := ih hrest
        cases w with
        | none => exact ⟨e, by simp only [collectVisible, he, hrr]⟩
        | some v => exact ⟨e, by simp only [collectVisible, he, hrr]⟩

/-- A record kept by the per-object body under a selected adapter has either
no owning-adapter reference or one equal to the selection. -/
theorem visibleEntry_device_path (sel : String) (o : IwdObject)
    (v : VisibleNetwork) (h : visibleEntry (some sel) o = .ok (some v)) :
    v.device_path = none ∨ v.device_path = some sel := by
  unfold visibleEntry at h
  split at h
  · cases hname : o.netName with
    | none => rw [hname] at h; cases h
    | some nm =>
      rw [hname] at h
      simp only at h
      split at h
      · cases h
        cases hdev : o.netDevice with
        | none => left; simp [hdev]
        | some d =>
          right
          rename_i hfil
          rw [hdev] at hfil
          simp only [passesFilter, beq_iff_eq] at hfil
          simpa [hdev] using congrArg some hfil
      · cases h
  · cases h

/-- Every record in a successful `collectKnown` run comes from a catalog
object whose per-object body kept it, and the kept record is in the run's
result. -/
theorem collectKnown_mem_of_entry (objects : List IwdObject) :
    ∀ out o k, o ∈ objects → collectKnown objects = .ok out →
      knownEntry o = .ok (some k) → k ∈ out := by
  induction objects with
  | nil => intro out o k ho; simp at ho
  | cons o' rest ih =>
    intro out o k ho h he
    simp only [collectKnown] at h
    cases he' : knownEntry o' with
    | error e => rw [he'] at h; cases h
    | ok w =>
      rw [he'] at h
      rcases List.mem_cons.mp ho with rfl | hrest
      · rw [he] at he'
        cases he'
        cases hr : collectKnown rest with
        | error e => rw [hr] at h; cases h
        | ok out' => rw [hr] at h; cases h; exact List.mem_cons_self k out'
      · cases w with
        | none => exact ih out o k hrest h he
        | some w =>
          cases hr : collectKnown rest with
          | error e => rw [hr] at h; cases h
          | ok out' =>
            rw [hr] at h
            cases h
            exact List.mem_cons_of_mem w (ih out' o k hrest hr he)

/-- The paths of a successful `collectDevices` run form a sublist of the
catalog's paths. -/
theorem collectDevices_paths_sublist (objects : List IwdObject) :
    ∀ out, collectDevices objects = .ok out →
      (out.map (fun d => d.path)).Sublist (objects.map (fun o => o.path)) := by
  induction objects with
  | nil =>
    intro out h
    simp only [collectDevices] at h
    cases h
    simp
  | cons o rest ih =>
    intro out h
    simp only [collectDevices] at h
    split at h
    · cases hname : o.devName with
      | none => rw [hname] at h; cases h
      | some n =>
        rw [hname] at h
        cases hr : collectDevices rest with
        | error e => rw [hr] at h; cases h
        | ok out' =>
          rw [hr] at h
          cases h
          simpa using List.Sublist.cons₂ o.path (ih out' hr)
    · exact List.Sublist.cons o.path (ih out h)

/-- C3: for a listing with selected adapter id `sel`, every returned network
has either no resolvable owning-adapter reference or one equal to `sel`, and
a Network-interface object with a readable name and no resolvable
owning-adapter reference is never excluded by the filter. -/
theorem list_visible_networks_adapter_filter (sel : String)
    (objects : List IwdObject) (out : List VisibleNetwork)
    (h : list_visible_networks (some sel) objects = .ok out) :
    (∀ v ∈ out, v.device_path = none ∨ v.device_path = some sel) ∧
    (∀ o ∈ objects, o.interfaces.contains NETWORK_IFACE = true →
      ∀ nm, o.netName = some nm → o.netDevice = none →
        ∃ v ∈ out, v.path = o.path ∧ v.device_path = none) := by
  unfold list_visible_networks at h
  cases hc : collectVisible (some sel) objects with
  | error e => rw [hc] at h; cases h
  | ok l =>
    rw [hc] at h
    cases h
    constructor
    · intro v hv
      have hvl : v ∈ l :=
        ((sortByKey_perm (fun v => v.ssid) l).mem_iff).mp hv
      obtain ⟨o, _, he⟩ := mem_collectVisible (some sel) objects l hc v hvl
      exact visibleEntry_device_path sel o v he
    · intro o ho hif nm hname hdev
      have hifm : NETWORK_IFACE ∈ o.interfaces := by simpa using hif
      have he : visibleEntry (some sel) o = .ok (some
          { ssid := nm,
            security := o.netType.getD "-",
            signal := if o.netSignal.getD 0 = 0 then "-"
              else toString (o.netSignal.getD 0) ++ " dBm",
            connected := o.netConnected.getD false,
            path := o.path,
            device_path := none }) := by
        simp [visibleEntry, hifm, hname, hdev, passesFilter]
      have hmem := collectVisible_mem_of_entry (some sel) objects l o _ ho hc he
      exact ⟨_, ((sortByKey_perm (fun v => v.ssid) l).mem_iff).mpr hmem, rfl, rfl⟩

/-- C3 witness: the filter theorem applied to a concrete catalog holding one
network owned by the selected adapter, one owned by another adapter, and one
with no resolvable owner. -/
theorem list_visible_networks_adapter_filter_witness :
    (∀ v ∈ [{ ssid := "BareNet", security := "-", signal := "-",
              connected := false, path := "/net/connman/iwd/0/1/bare_psk",
              device_path := none },
            { ssid := "CafeWifi", security := "psk", signal := "-",
              connected := false, path := "/net/connman/iwd/0/1/cafe_psk",
              device_path := some demoDevicePath }],
      VisibleNetwork.device_path v = none ∨
        VisibleNetwork.device_path v = some demoDevicePath) ∧
    (∀ o ∈ [demoCafe, demoBare], o.interfaces.contains NETWORK_IFACE = true →
      ∀ nm, o.netName = some nm → o.netDevice = none →
        ∃ v ∈ [{ ssid := "BareNet", security := "-", signal := "-",
                 connected := false, path := "/net/connman/iwd/0/1/bare_psk",
                 device_path := none },
               { ssid := "CafeWifi", security := "psk", signal := "-",
                 connected := false, path := "/net/connman/iwd/0/1/cafe_psk",
                 device_path := some demoDevicePath }],
          VisibleNetwork.path v = o.path ∧ VisibleNetwork.device_path v = none) :=
  list_visible_networks_adapter_filter demoDevicePath [demoCafe, demoBare] _ rfl

/-- C5: a Network-interface object with an unreadable `Name` makes the whole
visible-network listing fail, while each of the optional `Type`, `Connected`
and `Signal` properties, when unreadable on an entry, individually falls
back to its default "-", `false` or `0` (the zero signal being rendered
"-") for that entry, the listing itself staying alive. -/
theorem list_visible_networks_required_optional (sel : Option String)
    (objects : List IwdObject) :
    (∀ o ∈ objects, o.interfaces.contains NETWORK_IFACE = true →
      o.netName = none →
        ∃ e, list_visible_networks sel objects = .error e) ∧
    (∀ o ∈ objects, o.interfaces.contains NETWORK_IFACE = true →
      ∀ nm, o.netName = some nm →
        passesFilter sel o.netDevice = true →
        ∀ out, list_visible_networks sel objects = .ok out →
          ∃ v ∈ out, v.path = o.path ∧
            (o.netType = none → v.security = "-") ∧
            (o.netConnected = none → v.connected = false) ∧
            (o.netSignal = none → v.signal = "-")) := by
  constructor
  · intro o ho hif hname
    obtain ⟨e, he⟩ := collectVisible_error_of_badName sel objects o ho hif hname
    exact ⟨e, by simp only [list_visible_networks, he]⟩
  · intro o ho hif nm hname hfil out h
    unfold list_visible_networks at h
    cases hc : collectVisible sel objects with
    | error e => rw [hc] at h; cases h
    | ok l =>
      rw [hc] at h
      cases h
      have hifm : NETWORK_IFACE ∈ o.interfaces := by simpa using hif
      have he : visibleEntry sel o = .ok (some
          { ssid := nm,
            security := o.netType.getD "-",
            signal := if o.netSignal.getD 0 = 0 then "-"
              else toString (o.netSignal.getD 0) ++ " dBm",
            connected := o.netConnected.getD false,
            path := o.path,
            device_path := o.netDevice }) := by
        simp [visibleEntry, hifm, hname, hfil]
      have hmem := collectVisible_mem_of_entry sel objects l o _ ho hc he
      refine ⟨_, ((sortByKey_perm (fun v => v.ssid) l).mem_iff).mpr hmem,
        rfl, ?_, ?_, ?_⟩
      · intro ht
        simp [ht]
      · intro hcn
        simp [hcn]
      · intro hs
        simp [hs]

/-- C5 witness: a one-object catalog with an unreadable name errors; an
object lacking all three optional properties gets all three defaults; an
object lacking only `Connected` gets just that default, keeping its read
`Type` and `Signal` values. -/
theorem list_visible_networks_required_optional_witness :
    (∃ e, list_visible_networks none [demoBadName] = .error e) ∧
    (∃ v ∈ [({ ssid := "BareNet", security := "-", signal := "-",
               connected := false, path := "/net/connman/iwd/0/1/bare_psk",
               device_path := (none : Option String) } : VisibleNetwork)],
      VisibleNetwork.path v = demoBare.path ∧
      (demoBare.netType = none → VisibleNetwork.security v = "-") ∧
      (demoBare.netConnected = none → VisibleNetwork.connected v = false) ∧
      (demoBare.netSignal = none → VisibleNetwork.signal v = "-")) ∧
    (∃ v ∈ [({ ssid := "MixedNet", security := "wep", signal := "-30 dBm",
               connected := false, path := "/net/connman/iwd/0/1/mixed_wep",
               device_path := (none : Option String) } : VisibleNetwork)],
      VisibleNetwork.path v = demoMixed.path ∧
      (demoMixed.netType = none → VisibleNetwork.security v = "-") ∧
      (demoMixed.netConnected = none → VisibleNetwork.connected v = false) ∧
      (demoMixed.netSignal = none → VisibleNetwork.signal v = "-")) :=
  ⟨(list_visible_networks_required_optional none [demoBadName]).1 demoBadName
      (by simp) rfl rfl,
   (list_visible_networks_required_optional none [demoBare]).2 demoBare
      (by simp) rfl "BareNet" rfl rfl _ rfl,
   (list_visible_networks_required_optional none [demoMixed]).2 demoMixed
      (by simp) rfl "MixedNet" rfl rfl _ rfl⟩

/-- C10: the required `Name` property of a Network-interface object is read
before the adapter filter is applied, so a network owned by a non-selected
adapter whose `Name` is unreadable still aborts the whole listing, even
though the filter would have dropped that entry. -/
theorem visible_name_read_before_filter (sel : String)
    (objects : List IwdObject) (o : IwdObject) (d : String)
    (ho : o ∈ objects) (hif : o.interfaces.contains NETWORK_IFACE = true)
    (hname : o.netName = none) (_hdev : o.netDevice = some d)
    (_hne : d ≠ sel) :
    ∃ e, list_visible_networks (some sel) objects = .error e := by
  obtain ⟨e, he⟩ := collectVisible_error_of_badName (some sel) objects o ho hif hname
  exact ⟨e, by simp only [list_visible_networks, he]⟩

/-- C10 witness: a nameless network owned by a different adapter than the
selected one aborts the listing. -/
theorem visible_name_read_before_filter_witness :
    ∃ e, list_visible_networks (some "/net/connman/iwd/7/7") [demoBadName]
      = .error e :=
  visible_name_read_before_filter "/net/connman/iwd/7/7" [demoBadName]
    demoBadName demoDevicePath (by simp) rfl rfl rfl (by decide)

/-- C6: a KnownNetwork-interface object whose `AutoConnect` property is
unreadable yields a saved-network record whose `autoconnect` field is
absent, not a default `false`. -/
theorem list_known_networks_autoconnect_absent (objects : List IwdObject)
    (o : IwdObject) (nm : String) (out : List KnownNetwork)
    (ho : o ∈ objects)
    (hif : o.interfaces.contains KNOWN_NETWORK_IFACE = true)
    (hname : o.knName = some nm) (hauto : o.knAutoconnect = none)
    (h : list_known_networks objects = .ok out) :
    ∃ k ∈ out, k.path = o.path ∧ k.autoconnect = none := by
  unfold list_known_networks at h
  cases hc : collectKnown objects with
  | error e => rw [hc] at h; cases h
  | ok l =>
    rw [hc] at h
    cases h
    have hifm : KNOWN_NETWORK_IFACE ∈ o.interfaces := by simpa using hif
    have he : knownEntry o = .ok (some
        { name := nm,
          network_type := o.knType.getD "-",
          autoconnect := none,
          hidden := o.knHidden,
          path := o.path }) := by
      simp [knownEntry, hifm, hname, hauto]
    have hmem := collectKnown_mem_of_entry objects l o _ ho hc he
    exact ⟨_, ((sortByKey_perm (fun k => k.name) l).mem_iff).mpr hmem, rfl, rfl⟩

/-- C6 witness: the demo saved network with unreadable `AutoConnect` is
listed with an absent autoconnect field. -/
theorem list_known_networks_autoconnect_absent_witness :
    ∃ k ∈ [{ name := "HomeNet", network_type := "psk",
             autoconnect := (none : Option Bool), hidden := some false,
             path := "/net/connman/iwd/known/home_psk" }],
      KnownNetwork.path k = demoKnown.path ∧ KnownNetwork.autoconnect k = none :=
  list_known_networks_autoconnect_absent [demoKnown] demoKnown "HomeNet" _
    (by simp) rfl rfl rfl rfl

/-- C7: on a successful catalog read, the adapter list is sorted by name
ascending with no duplicate object identifiers (the catalog's object paths
being pairwise distinct, as keys of the daemon's managed-object map), the
known-network list is sorted by name ascending, and the visible-network
list is sorted by SSID ascending. -/
theorem catalog_lists_sorted_and_nodup (objects : List IwdObject)
    (sel : Option String) (devs : List DeviceInfo)
    (vis : List VisibleNetwork) (known : List KnownNetwork)
    (hd : list_devices objects = .ok devs)
    (hv : list_visible_networks sel objects = .ok vis)
    (hk : list_known_networks objects = .ok known)
    (hnd : (objects.map (fun o => o.path)).Nodup) :
    List.Sorted (fun a b => strLe a.name b.name = true) devs ∧
    (devs.map (fun d => d.path)).Nodup ∧
    List.Sorted (fun a b => strLe a.name b.name = true) known ∧
    List.Sorted (fun a b => strLe a.ssid b.ssid = true) vis := by
  unfold list_devices at hd
  unfold list_visible_networks at hv
  unfold list_known_networks at hk
  cases hcd : collectDevices objects with
  | error e => rw [hcd] at hd; cases hd
  | ok ld =>
    rw [hcd] at hd
    cases hd
    cases hcv : collectVisible sel objects with
    | error e => rw [hcv] at hv; cases hv
    | ok lv =>
      rw [hcv] at hv
      cases hv
      cases hck : collectKnown objects with
      | error e => rw [hck] at hk; cases hk
      | ok lk =>
        rw [hck] at hk
        cases hk
        refine ⟨sortByKey_sorted (fun d => d.name) ld, ?_,
          sortByKey_sorted (fun k => k.name) lk,
          sortByKey_sorted (fun v => v.ssid) lv⟩
        have hsub := collectDevices_paths_sublist objects ld hcd
        have hld : (ld.map (fun d => d.path)).Nodup :=
          List.Sublist.nodup hsub hnd
        have hperm :=
          List.Perm.map (fun d => d.path) (sortByKey_perm (fun d => d.name) ld)
        exact (hperm.symm).nodup hld

/-- C7 witness: the sortedness and distinctness conclusions evaluated on the
demo catalog. -/
theorem catalog_lists_sorted_and_nodup_witness :
    List.Sorted (fun a b => strLe a.name b.name = true)
      [({ name := "wlan0", path := demoDevicePath } : DeviceInfo)] ∧
    (([({ name := "wlan0", path := demoDevicePath } : DeviceInfo)]).map
      (fun d => d.path)).Nodup ∧
    List.Sorted (fun a b => strLe a.name b.name = true)
      [({ name := "HomeNet", network_type := "psk", autoconnect := none,
          hidden := some false,
          path := "/net/connman/iwd/known/home_psk" } : KnownNetwork)] ∧
    List.Sorted (fun a b => strLe a.ssid b.ssid = true)
      [({ ssid := "CafeWifi", security := "psk", signal := "-",
          connected := false, path := "/net/connman/iwd/0/1/cafe_psk",
          device_path := some demoDevicePath } : VisibleNetwork),
       ({ ssid := "HomeNet", security := "psk", signal := "-45 dBm",
          connected := false, path := "/net/connman/iwd/0/1/home_psk",
          device_path := some demoDevicePath } : VisibleNetwork)] :=
  catalog_lists_sorted_and_nodup demoCatalog none _ _ _ rfl rfl rfl (by decide)

/-- C8: on a catalog holding one adapter "wlan0" and the two network objects
"CafeWifi" (signal 0) and "HomeNet" (signal -45), the unfiltered listing is
exactly CafeWifi with signal rendered "-" followed by HomeNet with signal
rendered "-45 dBm". -/
theorem demo_visible_networks_scenario :
    list_visible_networks none [demoAdapter, demoCafe, demoHome] = .ok
      [{ ssid := "CafeWifi", security := "psk", signal := "-",
         connected := false, path := "/net/connman/iwd/0/1/cafe_psk",
         device_path := some demoDevicePath },
       { ssid := "HomeNet", security := "psk", signal := "-45 dBm",
         connected := false, path := "/net/connman/iwd/0/1/home_psk",
         device_path := some demoDevicePath }] := rfl

/-- C4 counterexample: with one adapter in the new list and a previously
selected identifier absent from it, the reconciliation does not clear the
selection (the claim says it is cleared); it resets it to the first
adapter. -/
theorem refresh_selection_cleared_cex :
    reconcile_selected_device [{ name := "wlan0", path := demoDevicePath }]
        (some "/net/connman/iwd/9/9") = some demoDevicePath ∧
    reconcile_selected_device [{ name := "wlan0", path := demoDevicePath }]
        (some "/net/connman/iwd/9/9") ≠ none := by
  exact ⟨by decide, by decide⟩

/-- C4 as amended: after a device-list refresh, when the previously selected
adapter identifier matches none of the returned adapters, the selection is
reset to the first adapter of the new list, and cleared exactly when the new
list is empty. -/
theorem refresh_selection_reset_to_first (devices : List DeviceInfo)
    (selected : Option String)
    (habs : ∀ d ∈ devices, some d.path ≠ selected) :
    reconcile_selected_device devices selected
      = devices.head?.map (fun d => d.path) := by
  cases devices with
  | nil => rfl
  | cons d0 rest =>
    have hall : (d0 :: rest).all (fun d => decide (some d.path ≠ selected))
        = true := by
      rw [List.all_eq_true]
      intro d hd
      exact decide_eq_true (habs d hd)
    simp only [reconcile_selected_device]
    rw [if_pos hall]
    rfl

/-- C4 witness: the amended reconciliation rule evaluated at an absent
previous selection and a one-adapter list. -/
theorem refresh_selection_reset_to_first_witness :
    reconcile_selected_device [{ name := "wlan0", path := demoDevicePath }]
        (some "/net/connman/iwd/9/9") = some demoDevicePath := by
  have h := refresh_selection_reset_to_first
      [{ name := "wlan0", path := demoDevicePath }]
      (some "/net/connman/iwd/9/9") (by decide)
  simpa using h
